import Mathlib

/-!
# Verification of `pin_extract.py`

A shallow embedding of the TLS public-key pin-extraction tool: the key
canonicalizer (`export_raw_public_key`), the pin computation
(`sha256_b64`), the connector's verification-mode selection, and the
output/exit behaviour of `main`.  Bytes are modelled as `List Nat`
(each entry a value `< 256`); machine words in SHA-256 are `Nat`
reduced modulo `2 ^ 32`.
-/

namespace PinExtract

/-- Big-endian base-256 digits of `n`, with no leading zero byte
(`[]` for `0`).  Fuel-structured so the kernel can evaluate it;
`fuel = n` always suffices. -/
def natBytesBEAux : Nat → Nat → List Nat
  | 0, _ => []
  | fuel + 1, n => if n = 0 then [] else natBytesBEAux fuel (n / 256) ++ [n % 256]

/-- Minimal big-endian byte string of a natural number. -/
def natBytesBE (n : Nat) : List Nat :=
  natBytesBEAux n n

/-- Left-pad a byte string with zero bytes to width `w`. -/
def leftPad (w : Nat) (bs : List Nat) : List Nat :=
  List.replicate (w - bs.length) 0 ++ bs

/-- DER definite-length octets for a content length `n`. -/
def derLen (n : Nat) : List Nat :=
  if n < 128 then [n] else (128 + (natBytesBE n).length) :: natBytesBE n

/-- A DER TLV: tag byte, length octets, content. -/
def derTLV (tag : Nat) (content : List Nat) : List Nat :=
  tag :: derLen content.length ++ content

/-- DER encoding of a non-negative INTEGER: minimal big-endian magnitude,
with a leading `0x00` when the top bit would otherwise read as a sign. -/
def derInt (n : Nat) : List Nat :=
  let mag := if n = 0 then [0] else natBytesBE n
  derTLV 2 (if 128 ≤ mag.headD 0 then 0 :: mag else mag)

/-- DER SEQUENCE wrapping already-encoded components. -/
def derSeq (content : List Nat) : List Nat :=
  derTLV 48 content

/-- DER OBJECT IDENTIFIER with the given content octets. -/
def derOID (content : List Nat) : List Nat :=
  derTLV 6 content

/-- DER BIT STRING with zero unused bits wrapping `payload`. -/
def derBitString (payload : List Nat) : List Nat :=
  derTLV 3 (0 :: payload)

/-- Content octets of OID 1.2.840.113549.1.1.1 (rsaEncryption). -/
def oidRsaEncryption : List Nat := [42, 134, 72, 134, 247, 13, 1, 1, 1]

/-- Content octets of OID 1.2.840.10045.2.1 (id-ecPublicKey). -/
def oidEcPublicKey : List Nat := [42, 134, 72, 206, 61, 2, 1]

/-- Content octets of OID 1.3.101.112 (id-Ed25519). -/
def oidEd25519 : List Nat := [43, 101, 112]

/-- Content octets of OID 1.3.101.113 (id-Ed448). -/
def oidEd448 : List Nat := [43, 101, 113]

/-- The parsed subject public key of the certificate
(`cert.public_key()`), tagged by algorithm family as the `isinstance`
dispatch in `export_raw_public_key` distinguishes them:
an RSA key carries its modulus and public exponent; an EC key carries
its curve name, the curve's OID content octets, the field width in
bytes, and the affine coordinates of the point; an Ed25519/Ed448 key
carries its raw byte encoding; any other algorithm is `unknown`,
carrying the SubjectPublicKeyInfo DER bytes it was parsed from. -/
inductive PublicKey where
  | rsa (n e : Nat)
  | ecKey (curveName : String) (curveOID : List Nat) (fieldWidth : Nat) (x y : Nat)
  | ed25519 (keyBytes : List Nat)
  | ed448 (keyBytes : List Nat)
  | unknown (spkiDer : List Nat)
deriving DecidableEq

/-- `pub.public_bytes(Encoding.DER, PublicFormat.PKCS1)` for an RSA key:
the DER encoding of the PKCS#1 `RSAPublicKey` structure
`SEQUENCE { modulus INTEGER, publicExponent INTEGER }`. -/
def pkcs1RSAPublicKeyDER (n e : Nat) : List Nat :=
  derSeq (derInt n ++ derInt e)

/-- `pub.public_bytes(Encoding.X962, PublicFormat.UncompressedPoint)`
for an EC key: ANSI X9.63 uncompressed point, `0x04` followed by the
X then Y coordinate, each left-zero-padded to the field width. -/
def x962UncompressedPoint (fieldWidth x y : Nat) : List Nat :=
  4 :: (leftPad fieldWidth (natBytesBE x) ++ leftPad fieldWidth (natBytesBE y))

/-- `pub.public_bytes(Encoding.DER, PublicFormat.SubjectPublicKeyInfo)`:
the X.509 SubjectPublicKeyInfo DER encoding
`SEQUENCE { AlgorithmIdentifier, subjectPublicKey BIT STRING }` of the
key; for an `unknown` key, the SPKI bytes it was parsed from. -/
def spkiDER : PublicKey → List Nat
  | .rsa n e =>
      derSeq (derSeq (derOID oidRsaEncryption ++ [5, 0]) ++
        derBitString (pkcs1RSAPublicKeyDER n e))
  | .ecKey _ curveOID fieldWidth x y =>
      derSeq (derSeq (derOID oidEcPublicKey ++ derOID curveOID) ++
        derBitString (x962UncompressedPoint fieldWidth x y))
  | .ed25519 keyBytes =>
      derSeq (derSeq (derOID oidEd25519) ++ derBitString keyBytes)
  | .ed448 keyBytes =>
      derSeq (derSeq (derOID oidEd448) ++ derBitString keyBytes)
  | .unknown spkiDer => spkiDer

/-- `pub.__class__.__name__`: the class name of the key object.  The
script only reads it in the Ed25519/Ed448 branch, where the
`cryptography` library's classes are named `Ed25519PublicKey` and
`Ed448PublicKey`. -/
def pubClassName : PublicKey → String
  | .rsa _ _ => "RSAPublicKey"
  | .ecKey _ _ _ _ _ => "EllipticCurvePublicKey"
  | .ed25519 _ => "Ed25519PublicKey"
  | .ed448 _ => "Ed448PublicKey"
  | .unknown _ => "PublicKey"

/-- The triple `(raw, spki, ktype)` returned by `export_raw_public_key`. -/
structure RawExport where
  raw : List Nat
  spki : List Nat
  ktype : String
deriving DecidableEq

/-- `export_raw_public_key`, after the certificate has been parsed and
its public key extracted: dispatches on the key's algorithm family to
produce the raw bytes and the label, and computes the SPKI bytes
uniformly for every family. -/
def export_raw_public_key (pub : PublicKey) : RawExport :=
  let rawKtype : List Nat × String :=
    match pub with
    | .rsa n e => (pkcs1RSAPublicKeyDER n e, "RSA (PKCS#1 DER)")
    | .ecKey curveName _ fieldWidth x y =>
        (x962UncompressedPoint fieldWidth x y,
         "EC " ++ curveName ++ " (X9.63 uncompressed)")
    | .ed25519 keyBytes => (keyBytes, pubClassName pub ++ " (raw)")
    | .ed448 keyBytes => (keyBytes, pubClassName pub ++ " (raw)")
    | .unknown _ => (spkiDER pub, "Unknown type → SPKI fallback")
  { raw := rawKtype.1, spki := spkiDER pub, ktype := rawKtype.2 }

/-! ## SHA-256 (`hashlib.sha256`), FIPS 180-4 -/

/-- Reduce to a 32-bit word. -/
def w32 (n : Nat) : Nat := n % 4294967296

/-- 32-bit right rotation. -/
def rotr32 (x k : Nat) : Nat := w32 ((x >>> k) ||| (x <<< (32 - k)))

/-- SHA-256 `Ch(x,y,z) = (x ∧ y) ⊕ (¬x ∧ z)`. -/
def shaCh (x y z : Nat) : Nat := (x &&& y) ^^^ ((x ^^^ 4294967295) &&& z)

/-- SHA-256 `Maj(x,y,z) = (x ∧ y) ⊕ (x ∧ z) ⊕ (y ∧ z)`. -/
def shaMaj (x y z : Nat) : Nat := (x &&& y) ^^^ (x &&& z) ^^^ (y &&& z)

/-- SHA-256 `Σ₀`. -/
def bigSigma0 (x : Nat) : Nat := rotr32 x 2 ^^^ rotr32 x 13 ^^^ rotr32 x 22

/-- SHA-256 `Σ₁`. -/
def bigSigma1 (x : Nat) : Nat := rotr32 x 6 ^^^ rotr32 x 11 ^^^ rotr32 x 25

/-- SHA-256 `σ₀`. -/
def smallSigma0 (x : Nat) : Nat := rotr32 x 7 ^^^ rotr32 x 18 ^^^ (x >>> 3)

/-- SHA-256 `σ₁`. -/
def smallSigma1 (x : Nat) : Nat := rotr32 x 17 ^^^ rotr32 x 19 ^^^ (x >>> 10)

/-- The 64 SHA-256 round constants (FIPS 180-4 §4.2.2, in decimal). -/
def shaK : List Nat :=
  [1116352408, 1899447441, 3049323471, 3921009573,
   961987163, 1508970993, 2453635748, 2870763221,
   3624381080, 310598401, 607225278, 1426881987,
   1925078388, 2162078206, 2614888103, 3248222580,
   3835390401, 4022224774, 264347078, 604807628,
   770255983, 1249150122, 1555081692, 1996064986,
   2554220882, 2821834349, 2952996808, 3210313671,
   3336571891, 3584528711, 113926993, 338241895,
   666307205, 773529912, 1294757372, 1396182291,
   1695183700, 1986661051, 2177026350, 2456956037,
   2730485921, 2820302411, 3259730800, 3345764771,
   3516065817, 3600352804, 4094571909, 275423344,
   430227734, 506948616, 659060556, 883997877,
   958139571, 1322822218, 1537002063, 1747873779,
   1955562222, 2024104815, 2227730452, 2361852424,
   2428436474, 2756734187, 3204031479, 3329325298]

/-- The eight SHA-256 working variables `a`..`h`. -/
structure Sha256State where
  a : Nat
  b : Nat
  c : Nat
  d : Nat
  e : Nat
  f : Nat
  g : Nat
  h : Nat

/-- The eight SHA-256 initial hash values (FIPS 180-4 §5.3.3, in decimal). -/
def sha256H0 : List Nat :=
  [1779033703, 3144134277, 1013904242, 2773480762,
   1359893119, 2600822924, 528734635, 1541459225]

/-- One SHA-256 compression round on state `st` with round constant and
schedule word `(k, w)`. -/
def sha256Round (st : Sha256State) (kw : Nat × Nat) : Sha256State :=
  let t1 := w32 (st.h + bigSigma1 st.e + shaCh st.e st.f st.g + kw.1 + kw.2)
  let t2 := w32 (bigSigma0 st.a + shaMaj st.a st.b st.c)
  ⟨w32 (t1 + t2), st.a, st.b, st.c, w32 (st.d + t1), st.e, st.f, st.g⟩

/-- Big-endian 32-bit words from a list of bytes (4 bytes per word). -/
def bytesToWords : Nat → List Nat → List Nat
  | 0, _ => []
  | _, [] => []
  | fuel + 1, bs =>
      (bs.take 4).foldl (fun acc b => acc * 256 + b) 0 :: bytesToWords fuel (bs.drop 4)

/-- Extend a 16-word block schedule by `k` more words,
`w[t] = σ₁(w[t-2]) + w[t-7] + σ₀(w[t-15]) + w[t-16]` mod `2^32`. -/
def extendSchedule : Nat → List Nat → List Nat
  | 0, ws => ws
  | k + 1, ws =>
      extendSchedule k (ws ++
        [w32 (smallSigma1 (ws.getD (ws.length - 2) 0) + ws.getD (ws.length - 7) 0 +
          smallSigma0 (ws.getD (ws.length - 15) 0) + ws.getD (ws.length - 16) 0)])

/-- Compress one 64-byte block into the running hash (eight words). -/
def sha256Compress (hash : List Nat) (block : List Nat) : List Nat :=
  let ws := extendSchedule 48 (bytesToWords block.length block)
  let st0 : Sha256State :=
    ⟨hash.getD 0 0, hash.getD 1 0, hash.getD 2 0, hash.getD 3 0,
     hash.getD 4 0, hash.getD 5 0, hash.getD 6 0, hash.getD 7 0⟩
  let st := (shaK.zip ws).foldl sha256Round st0
  [w32 (hash.getD 0 0 + st.a), w32 (hash.getD 1 0 + st.b),
   w32 (hash.getD 2 0 + st.c), w32 (hash.getD 3 0 + st.d),
   w32 (hash.getD 4 0 + st.e), w32 (hash.getD 5 0 + st.f),
   w32 (hash.getD 6 0 + st.g), w32 (hash.getD 7 0 + st.h)]

/-- SHA-256 padding: append `0x80`, zero bytes to 56 mod 64, then the
bit length as 8 big-endian bytes. -/
def sha256Pad (msg : List Nat) : List Nat :=
  msg ++ [128] ++ List.replicate ((119 - msg.length % 64) % 64) 0 ++
    leftPad 8 (natBytesBE (8 * msg.length))

/-- Split a byte list into 64-byte blocks. -/
def chunks64 : Nat → List Nat → List (List Nat)
  | 0, _ => []
  | _, [] => []
  | fuel + 1, bs => bs.take 64 :: chunks64 fuel (bs.drop 64)

/-- `hashlib.sha256(data).digest()`: the 32-byte SHA-256 digest. -/
def sha256 (msg : List Nat) : List Nat :=
  let padded := sha256Pad msg
  let final := (chunks64 padded.length padded).foldl sha256Compress sha256H0
  final.foldr (fun word acc => leftPad 4 (natBytesBE word) ++ acc) []

/-! ## Base64 (`base64.b64encode`), RFC 4648 -/

/-- The Base64 alphabet. -/
def b64Alphabet : List Char :=
  "ABCDEFGHIJKLMNOPQRSTUVWXYZabcdefghijklmnopqrstuvwxyz0123456789+/".toList

/-- Character for a 6-bit value. -/
def b64Char (i : Nat) : Char := b64Alphabet.getD i 'A'

/-- Encode bytes in groups of three, padding the final group with `=`. -/
def b64EncodeAux : Nat → List Nat → List Char
  | 0, _ => []
  | _, [] => []
  | _ + 1, [b1] => [b64Char (b1 / 4), b64Char (b1 % 4 * 16), '=', '=']
  | _ + 1, [b1, b2] =>
      [b64Char (b1 / 4), b64Char (b1 % 4 * 16 + b2 / 16), b64Char (b2 % 16 * 4), '=']
  | fuel + 1, b1 :: b2 :: b3 :: rest =>
      b64Char (b1 / 4) :: b64Char (b1 % 4 * 16 + b2 / 16) ::
        b64Char (b2 % 16 * 4 + b3 / 64) :: b64Char (b3 % 64) :: b64EncodeAux fuel rest

/-- `base64.b64encode(data).decode("ascii")`. -/
def b64encode (data : List Nat) : String :=
  String.mk (b64EncodeAux data.length data)

/-- `sha256_b64`: Base64 of the SHA-256 digest of `data`. -/
def sha256_b64 (data : List Nat) : String :=
  b64encode (sha256 data)

/-! ## Connector (`get_leaf_cert_der`) and CLI -/

/-- The TLS context's verification mode: `ssl.create_default_context()`
verifies the peer against the platform trust store and checks the
hostname; `ssl._create_unverified_context()` disables both. -/
inductive VerifyMode where
  | verifyDefault
  | unverified
deriving DecidableEq

/-- The context built by `get_leaf_cert_der` from its `insecure` flag. -/
def makeContext (insecure : Bool) : VerifyMode :=
  if insecure then .unverified else .verifyDefault

/-- The peer a connection reaches: whether its certificate chains to a
trusted root, whether it matches the requested hostname, and the DER
bytes of its leaf certificate. -/
structure TLSPeer where
  trusted : Bool
  hostnameMatch : Bool
  certDer : List Nat

/-- Modelled from the spec: the TLS handshake performed by the `ssl`
library inside `get_leaf_cert_der` (the library's code is not part of
this repository).  With the default context it fails when the peer
certificate is untrusted or the hostname does not match; with the
unverified context all certificate validation is skipped and the
handshake succeeds regardless of trust, returning the peer's leaf
certificate DER bytes exactly as transmitted. -/
def tlsHandshake : VerifyMode → TLSPeer → Except String (List Nat)
  | .unverified, peer => .ok peer.certDer
  | .verifyDefault, peer =>
      if peer.trusted && peer.hostnameMatch then .ok peer.certDer
      else .error "certificate verify failed"

/-- `get_leaf_cert_der host port timeout insecure`, with the reached
peer made explicit: builds the context from `insecure` and performs
the handshake. -/
def get_leaf_cert_der (insecure : Bool) (peer : TLSPeer) : Except String (List Nat) :=
  tlsHandshake (makeContext insecure) peer

/-- `argparse` with `action="store_true"` for `--insecure`: the flag is
`True` exactly when present on the command line, `False` by default. -/
def parseInsecure (argv : List String) : Bool :=
  argv.contains "--insecure"

/-- The parsed command-line arguments used by `main`. -/
structure Args where
  server : String
  port : Nat
  insecure : Bool
  printKey : Bool

/-- The observable outcome of one invocation: exit code and the lines
printed to stdout and stderr. -/
structure RunResult where
  exitCode : Nat
  stdout : List String
  stderr : List String
deriving DecidableEq

/-- `main`, with the outcome of the fallible steps (fetching the
certificate, parsing it, extracting the key) made explicit: on any
exception it prints `Error: <message>` to stderr and exits 1; on
success it prints the key-format line and the pin line, plus — only
under `--print-key` — a blank line, the sensitivity warning, and the
Base64 of the raw key bytes, and exits 0. -/
def main (args : Args) (fetched : Except String PublicKey) : RunResult :=
  match fetched with
  | .error e => { exitCode := 1, stdout := [], stderr := ["Error: " ++ e] }
  | .ok pub =>
      let res := export_raw_public_key pub
      { exitCode := 0
        stdout :=
          ["Key format (raw export): " ++ res.ktype,
           "PIN (RAW key)  SHA256 Base64: " ++ sha256_b64 res.raw ++ "   <-- use this KEY"] ++
          (if args.printKey then
            ["", "Raw public key (Base64) — sensitive, do not log in prod:",
             b64encode res.raw]
          else [])
        stderr := [] }

/-! ## Spec-side definitions

Definitions written from the spec's words, to be compared with the
embedding of the source. -/

/-- The PKCS#1 `RSAPublicKey` structure built independently from the
modulus and public exponent, DER-encoded:
`SEQUENCE { modulus INTEGER, publicExponent INTEGER }` with no
algorithm-identifier wrapper. -/
def rsaPublicKeyDER_spec (n e : Nat) : List Nat :=
  derSeq (derInt n ++ derInt e)

/-- The key-type labels the code actually produces, per family; this
amends the spec's table, which shows `"Ed25519 (raw)"` and
`"Ed448 (raw)"` where the code emits the key class's name
(`pub.__class__.__name__`) followed by `" (raw)"`. -/
def amendedLabel : PublicKey → String
  | .rsa _ _ => "RSA (PKCS#1 DER)"
  | .ecKey curveName _ _ _ _ => "EC " ++ curveName ++ " (X9.63 uncompressed)"
  | .ed25519 _ => "Ed25519PublicKey (raw)"
  | .ed448 _ => "Ed448PublicKey (raw)"
  | .unknown _ => "Unknown type → SPKI fallback"

/-! ## Helper lemmas -/

theorem natBytesBEAux_length_le :
    ∀ (fuel n w : Nat), n ≤ fuel → n < 256 ^ w → (natBytesBEAux fuel n).length ≤ w := by
  intro fuel
  induction fuel with
  | zero =>
      intro n w hn _
      have : n = 0 := Nat.le_zero.mp hn
      simp [natBytesBEAux, this]
  | succ fuel ih =>
      intro n w hn hw
      by_cases h0 : n = 0
      · simp [natBytesBEAux, h0]
      · cases w with
        | zero => exact absurd (Nat.lt_one_iff.mp (by simpa using hw)) h0
        | succ w =>
            have hdiv : n / 256 < 256 ^ w := by
              rw [Nat.div_lt_iff_lt_mul (by norm_num : (0 : Nat) < 256)]
              calc n < 256 ^ (w + 1) := hw
                _ = 256 ^ w * 256 := by ring
            have hfuel : n / 256 ≤ fuel :=
              Nat.le_of_lt_succ (Nat.lt_of_lt_of_le
                (Nat.div_lt_self (Nat.pos_of_ne_zero h0) (by norm_num)) hn)
            have htail := ih (n / 256) w hfuel hdiv
            simp only [natBytesBEAux, if_neg h0, List.length_append, List.length_cons,
              List.length_nil]
            omega

theorem natBytesBE_length_le {n w : Nat} (h : n < 256 ^ w) :
    (natBytesBE n).length ≤ w :=
  natBytesBEAux_length_le n n w le_rfl h

theorem leftPad_length {w : Nat} {bs : List Nat} (h : bs.length ≤ w) :
    (leftPad w bs).length = w := by
  simp only [leftPad, List.length_append, List.length_replicate]
  omega

/-! ## Claims -/

/-- C1: for every certificate successfully canonicalized, the printed
pin (the second stdout line) equals `base64(sha256(RawKeyBytes))`,
the hash being computed over the raw canonical key bytes — the `raw`
(first) component returned by `export_raw_public_key` — and not over
the SPKI bytes. -/
theorem claim_C1 (args : Args) (pub : PublicKey) :
    (main args (.ok pub)).stdout.getD 1 "" =
      "PIN (RAW key)  SHA256 Base64: " ++
        b64encode (sha256 (export_raw_public_key pub).raw) ++ "   <-- use this KEY" := by
  cases hp : args.printKey <;>
    simp [main, sha256_b64, hp, List.getD]

/-- C2: for every RSA public key, `export_raw_public_key` returns raw
key bytes equal to the DER encoding of the PKCS#1 `RSAPublicKey`
structure (modulus and public exponent, no algorithm-identifier
wrapper) built independently from the same modulus and exponent. -/
theorem claim_C2 (n e : Nat) :
    (export_raw_public_key (.rsa n e)).raw = rsaPublicKeyDER_spec n e := rfl

/-- C3: for every elliptic-curve public key on a curve of field width
`w` bytes (coordinates below `256 ^ w`), the raw key bytes have length
exactly `1 + 2 * w`, start with byte `0x04`, and their two `w`-byte
halves equal the X and Y coordinates, each left-zero-padded to `w`
bytes (ANSI X9.63 uncompressed point). -/
theorem claim_C3 (curveName : String) (curveOID : List Nat) (w x y : Nat)
    (hx : x < 256 ^ w) (hy : y < 256 ^ w) :
    (export_raw_public_key (.ecKey curveName curveOID w x y)).raw.length = 1 + 2 * w ∧
    (export_raw_public_key (.ecKey curveName curveOID w x y)).raw.headD 0 = 4 ∧
    ((export_raw_public_key (.ecKey curveName curveOID w x y)).raw.drop 1).take w =
      leftPad w (natBytesBE x) ∧
    ((export_raw_public_key (.ecKey curveName curveOID w x y)).raw.drop 1).drop w =
      leftPad w (natBytesBE y) := by
  have hpx : (leftPad w (natBytesBE x)).length = w := leftPad_length (natBytesBE_length_le hx)
  have hpy : (leftPad w (natBytesBE y)).length = w := leftPad_length (natBytesBE_length_le hy)
  have hraw : (export_raw_public_key (.ecKey curveName curveOID w x y)).raw =
      4 :: (leftPad w (natBytesBE x) ++ leftPad w (natBytesBE y)) := rfl
  refine ⟨?_, ?_, ?_, ?_⟩
  · rw [hraw]
    simp only [List.length_cons, List.length_append, hpx, hpy]
    omega
  · rw [hraw]; rfl
  · rw [hraw]
    exact List.take_left' hpx
  · rw [hraw]
    exact List.drop_left' hpx

/-- Witness for C3 at a concrete EC key of field width 2. -/
theorem claim_C3_witness :
    (export_raw_public_key (.ecKey "secp256r1" [42, 134, 72, 206, 61, 3, 1, 7] 2 1 258)).raw.length =
      1 + 2 * 2 ∧
    (export_raw_public_key (.ecKey "secp256r1" [42, 134, 72, 206, 61, 3, 1, 7] 2 1 258)).raw.headD 0 = 4 ∧
    ((export_raw_public_key (.ecKey "secp256r1" [42, 134, 72, 206, 61, 3, 1, 7] 2 1 258)).raw.drop 1).take 2 =
      leftPad 2 (natBytesBE 1) ∧
    ((export_raw_public_key (.ecKey "secp256r1" [42, 134, 72, 206, 61, 3, 1, 7] 2 1 258)).raw.drop 1).drop 2 =
      leftPad 2 (natBytesBE 258) :=
  claim_C3 "secp256r1" [42, 134, 72, 206, 61, 3, 1, 7] 2 1 258 (by norm_num) (by norm_num)

/-- C4: for every Ed25519 (respectively Ed448) public key — whose
native raw encoding is 32 (respectively 57) bytes — the raw key bytes
equal that native raw encoding with no wrapper and have length exactly
32 (respectively 57). -/
theorem claim_C4 (b c : List Nat) (hb : b.length = 32) (hc : c.length = 57) :
    ((export_raw_public_key (.ed25519 b)).raw = b ∧
      (export_raw_public_key (.ed25519 b)).raw.length = 32) ∧
    ((export_raw_public_key (.ed448 c)).raw = c ∧
      (export_raw_public_key (.ed448 c)).raw.length = 57) :=
  ⟨⟨rfl, hb⟩, ⟨rfl, hc⟩⟩

/-- Witness for C4 at concrete 32- and 57-byte keys. -/
theorem claim_C4_witness :
    ((export_raw_public_key (.ed25519 (List.replicate 32 0))).raw = List.replicate 32 0 ∧
      (export_raw_public_key (.ed25519 (List.replicate 32 0))).raw.length = 32) ∧
    ((export_raw_public_key (.ed448 (List.replicate 57 1))).raw = List.replicate 57 1 ∧
      (export_raw_public_key (.ed448 (List.replicate 57 1))).raw.length = 57) :=
  claim_C4 (List.replicate 32 0) (List.replicate 57 1) (by decide) (by decide)

/-- C5 counterexample: for an Ed25519 key the label the code produces
is `"Ed25519PublicKey (raw)"` (the key class's name plus `" (raw)"`),
not the spec table's `"Ed25519 (raw)"`. -/
theorem claim_C5_counterexample :
    (export_raw_public_key (.ed25519 (List.replicate 32 0))).ktype ≠ "Ed25519 (raw)" := by
  decide

/-- C5 (amended): the label returned by `export_raw_public_key` is
`"RSA (PKCS#1 DER)"` for RSA, `"EC {curve-name} (X9.63 uncompressed)"`
for elliptic-curve keys, the key class's name followed by `" (raw)"` —
`"Ed25519PublicKey (raw)"` / `"Ed448PublicKey (raw)"` — for Ed25519 and
Ed448, and `"Unknown type → SPKI fallback"` otherwise. -/
theorem claim_C5 (pub : PublicKey) :
    (export_raw_public_key pub).ktype = amendedLabel pub := by
  cases pub <;> rfl

/-- C6: for every key of an unrecognized algorithm family, the raw key
bytes fall back to the full SubjectPublicKeyInfo DER encoding — the
very bytes also returned as the SPKI component — and the label is
`"Unknown type → SPKI fallback"`. -/
theorem claim_C6 (spkiBytes : List Nat) :
    (export_raw_public_key (.unknown spkiBytes)).raw = spkiBytes ∧
    (export_raw_public_key (.unknown spkiBytes)).raw =
      (export_raw_public_key (.unknown spkiBytes)).spki ∧
    (export_raw_public_key (.unknown spkiBytes)).ktype = "Unknown type → SPKI fallback" :=
  ⟨rfl, rfl, rfl⟩

/-- C7: when fetching or canonicalizing fails, the process exits with
code 1, writes the single line `Error: <message>` to stderr, and
prints nothing (hence no pin) on stdout; on success it exits with code
0 and writes nothing to stderr. -/
theorem claim_C7 :
    (∀ (args : Args) (e : String),
      main args (.error e) = { exitCode := 1, stdout := [], stderr := ["Error: " ++ e] }) ∧
    (∀ (args : Args) (pub : PublicKey),
      (main args (.ok pub)).exitCode = 0 ∧ (main args (.ok pub)).stderr = []) :=
  ⟨fun _ _ => rfl, fun _ _ => ⟨rfl, rfl⟩⟩

/-- C8: on success, stdout is exactly the key-format line followed by
the pin line, with a blank line, the warning header, and the Base64 of
the raw key bytes appended exactly once, after the pin lines, if and
only if `--print-key` was passed. -/
theorem claim_C8 (args : Args) (pub : PublicKey) :
    (main args (.ok pub)).stdout =
      ["Key format (raw export): " ++ (export_raw_public_key pub).ktype,
       "PIN (RAW key)  SHA256 Base64: " ++ sha256_b64 (export_raw_public_key pub).raw ++
         "   <-- use this KEY"] ++
      (if args.printKey then
        ["", "Raw public key (Base64) — sensitive, do not log in prod:",
         b64encode (export_raw_public_key pub).raw]
      else []) := rfl

/-- C9: with `insecure` false (the default when `--insecure` is
absent), the handshake succeeds exactly when the peer certificate is
trusted and the hostname matches, and fails otherwise; with `insecure`
true all certificate validation is skipped and the handshake succeeds
regardless of trust; the flag is strictly opt-in. -/
theorem claim_C9 :
    (∀ peer : TLSPeer,
      get_leaf_cert_der false peer = .ok peer.certDer ↔
        peer.trusted = true ∧ peer.hostnameMatch = true) ∧
    (∀ peer : TLSPeer, (peer.trusted && peer.hostnameMatch) = false →
      get_leaf_cert_der false peer = .error "certificate verify failed") ∧
    (∀ peer : TLSPeer, get_leaf_cert_der true peer = .ok peer.certDer) ∧
    (∀ argv : List String, "--insecure" ∉ argv → parseInsecure argv = false) ∧
    parseInsecure ["--insecure"] = true := by
  refine ⟨?_, ?_, ?_, ?_, rfl⟩
  · intro peer
    cases ht : peer.trusted <;> cases hh : peer.hostnameMatch <;>
      simp [get_leaf_cert_der, makeContext, tlsHandshake, ht, hh]
  · intro peer hfail
    cases ht : peer.trusted <;> cases hh : peer.hostnameMatch <;>
      simp_all [get_leaf_cert_der, makeContext, tlsHandshake]
  · intro peer; rfl
  · intro argv habs
    simpa [parseInsecure, List.contains_iff_exists_mem_beq] using
      fun h => habs (by simpa using h)

/-- Witness for C9: a concrete untrusted peer is rejected in default
mode and accepted in insecure mode, and a command line without
`--insecure` parses the flag as false. -/
theorem claim_C9_witness :
    get_leaf_cert_der false ⟨false, true, [48]⟩ = .error "certificate verify failed" ∧
    get_leaf_cert_der true ⟨false, true, [48]⟩ = .ok [48] ∧
    parseInsecure ["api.example.com", "--port", "443"] = false :=
  ⟨claim_C9.2.1 ⟨false, true, [48]⟩ (by decide),
   claim_C9.2.2.1 ⟨false, true, [48]⟩,
   claim_C9.2.2.2.1 ["api.example.com", "--port", "443"] (by decide)⟩

/-- C10: for an unrecognized key the raw bytes returned by
`export_raw_public_key` are byte-for-byte the SPKI bytes returned
alongside them, and for every key family the SPKI component is
computed by the one uniform SPKI encoding, regardless of which
raw-encoding branch fired. -/
theorem claim_C10 :
    (∀ spkiBytes : List Nat,
      (export_raw_public_key (.unknown spkiBytes)).raw =
        (export_raw_public_key (.unknown spkiBytes)).spki) ∧
    (∀ pub : PublicKey, (export_raw_public_key pub).spki = spkiDER pub) :=
  ⟨fun _ => rfl, fun _ => rfl⟩

end PinExtract
